import Mathlib

/-!
Shallow embedding of the tui-base-framework runtime core and a verification
of its specified behavior.

Source files embedded:
- `src/event.rs` (Event, EventResult), `src/message.rs` (Message)
- `src/component.rs` (the Component capability contract)
- `src/terminal.rs` (TerminalGuard::new, Drop for TerminalGuard)
- `src/app.rs` (App::render_loop, App::input_loop)
- `src/examples/counter.rs` (Counter)
- `src/examples/list_selector.rs` (ListSelector)

Machine integers: the counter's `i32` is modelled as `Int` (no overflow is
reached by any claim), `usize` indices/lengths as `Nat`.  Fallible terminal
operations are modelled as `Except`-returning functions over an explicit
terminal state; which operation fails is supplied by an environment record.
The tokio channels are modelled as the lists of items buffered at the moment
a drain begins; the render loop is modelled as a fold over a list of per-tick
channel contents, producing a trace of component invocations and renders.
-/

namespace TuiBase

/-- Key codes, from crossterm's `KeyCode` as used by the examples:
`Up`, `Down`, `Char(c)`, everything else collapsed to `other`. -/
inductive KeyCode where
  | up
  | down
  | char (c : Char)
  | other (n : Nat)
  deriving DecidableEq, Repr

/-- Modifier set of a key event; `crossterm::event::KeyModifiers` restricted
to the flags the code inspects (only CONTROL is ever tested). -/
structure KeyModifiers where
  control : Bool
  shift : Bool
  alt : Bool
  deriving DecidableEq, Repr

/-- `KeyModifiers::NONE`. -/
def KeyModifiers.NONE : KeyModifiers := ⟨false, false, false⟩

/-- `KeyModifiers::CONTROL`. -/
def KeyModifiers.CONTROL : KeyModifiers := ⟨true, false, false⟩

/-- `modifiers.contains(KeyModifiers::CONTROL)`. -/
def KeyModifiers.containsControl (m : KeyModifiers) : Bool := m.control

/-- `crossterm::event::KeyEvent`: the fields the code reads. -/
structure KeyEvent where
  code : KeyCode
  modifiers : KeyModifiers
  deriving DecidableEq, Repr

/-- `src/event.rs`: `enum Event { Key(KeyEvent), Mouse(MouseEvent), Resize(u16, u16), Tick }`.
Mouse payload is opaque to all embedded code, modelled as `Nat`. -/
inductive Event where
  | key (k : KeyEvent)
  | mouse (m : Nat)
  | resize (w h : Nat)
  | tick
  deriving DecidableEq, Repr

/-- `src/event.rs`: `enum EventResult { Consumed, Propagate }`. -/
inductive EventResult where
  | consumed
  | propagate
  deriving DecidableEq, Repr

/-- `src/message.rs`: `enum Message { Quit, Custom(Box<dyn Any + Send>) }`.
The type-erased payload is opaque to all embedded code, modelled as `Nat`. -/
inductive Message where
  | quit
  | custom (payload : Nat)
  deriving DecidableEq, Repr

/-- Whether a message is `Message::Quit` (the discrimination done by the
render loop's `match message { Message::Quit => .., _ => .. }`). -/
def Message.isQuit : Message → Bool
  | .quit => true
  | .custom _ => false

/-- `src/component.rs`: the `Component` trait, restricted to the two methods
the render loop invokes per tick.  `handleEvent` returns the mutated state
together with the `EventResult` (which the runtime discards); `update`
returns the mutated state.  State type `σ` stands for the component's own
display state behind the `Box<dyn Component>`. -/
structure Component (σ : Type) where
  handleEvent : σ → Event → σ × EventResult
  update : σ → Message → σ

/-! ## Terminal guard (`src/terminal.rs`) -/

/-- Process-wide terminal mode state touched by the guard: whether raw mode
is enabled and whether the alternate screen is entered. -/
structure TermState where
  rawMode : Bool
  altScreen : Bool
  deriving DecidableEq, Repr

/-- Environment deciding which fallible terminal operations succeed. -/
structure TermEnv where
  enableRawOk : Bool
  enterAltOk : Bool
  terminalNewOk : Bool
  disableRawOk : Bool
  leaveAltOk : Bool
  deriving DecidableEq, Repr

/-- `crossterm::terminal::enable_raw_mode()`: on success raw mode is on;
on failure the state is unchanged and an error is returned. -/
def enable_raw_mode (env : TermEnv) (ts : TermState) : Except Unit TermState :=
  if env.enableRawOk then .ok { ts with rawMode := true } else .error ()

/-- `execute!(stdout(), EnterAlternateScreen)`. -/
def execute_enterAlt (env : TermEnv) (ts : TermState) : Except Unit TermState :=
  if env.enterAltOk then .ok { ts with altScreen := true } else .error ()

/-- `crossterm::terminal::disable_raw_mode()`. -/
def disable_raw_mode (env : TermEnv) (ts : TermState) : Except Unit TermState :=
  if env.disableRawOk then .ok { ts with rawMode := false } else .error ()

/-- `execute!(stdout(), LeaveAlternateScreen)`. -/
def execute_leaveAlt (env : TermEnv) (ts : TermState) : Except Unit TermState :=
  if env.leaveAltOk then .ok { ts with altScreen := false } else .error ()

/-- `TerminalGuard::new` (src/terminal.rs lines 19-27), translated
statement by statement:
`enable_raw_mode()?; execute!(stdout, EnterAlternateScreen)?;
 Terminal::new(backend)?; Ok(Self { terminal })`.
Returns the terminal state after the call together with the `Result`:
`.ok ()` means a guard was constructed.  On an early `?` return the
terminal state is whatever the statements so far left it as. -/
def TerminalGuard_new (env : TermEnv) (ts : TermState) : TermState × Except Unit Unit :=
  match enable_raw_mode env ts with
  | .error e => (ts, .error e)
  | .ok ts1 =>
    match execute_enterAlt env ts1 with
    | .error e => (ts1, .error e)
    | .ok ts2 =>
      if env.terminalNewOk then (ts2, .ok ()) else (ts2, .error ())

/-- `impl Drop for TerminalGuard` (src/terminal.rs lines 34-39):
`let _ = disable_raw_mode(); let _ = execute!(stdout, LeaveAlternateScreen);`.
Both operations are attempted unconditionally; each `let _ =` discards a
failure, keeping the state the failed operation left (unchanged).  The
return type carries no error channel, mirroring `fn drop(&mut self)`. -/
def TerminalGuard_drop (env : TermEnv) (ts : TermState) : TermState :=
  let ts1 := match disable_raw_mode env ts with
    | .ok t => t
    | .error _ => ts
  match execute_leaveAlt env ts1 with
  | .ok t => t
  | .error _ => ts1

/-! ## Render loop (`src/app.rs`, `App::render_loop`) -/

/-- One observable action of the render loop: an event dispatched to
`component.handle_event`, a message forwarded to `component.update`, or one
`terminal.draw(..)` render call. -/
inductive TraceItem where
  | handleEv (e : Event)
  | updateMsg (m : Message)
  | render
  deriving DecidableEq, Repr

/-- The channel contents observed by one cadence tick: the events buffered
in the event channel and the messages buffered in the message channel at the
moment the tick's drains run (`try_recv` until `Err`). -/
structure TickInput where
  events : List Event
  messages : List Message
  deriving DecidableEq, Repr

/-- `while let Ok(event) = self.event_rx.try_recv() { self.component.handle_event(event); }`
— each buffered event is dispatched in FIFO order; the returned
`EventResult` is discarded (`.1`). -/
def drainEvents (c : Component σ) : σ → List Event → σ × List TraceItem
  | s, [] => (s, [])
  | s, e :: rest =>
    let s1 := (c.handleEvent s e).1
    let r := drainEvents c s1 rest
    (r.1, .handleEv e :: r.2)

/-- `while let Ok(message) = self.message_rx.try_recv() { match message { Quit => should_quit = true, _ => component.update(message) } }`
— returns (state, should_quit flag, trace of forwarded updates). -/
def drainMessages (c : Component σ) : σ → Bool → List Message → σ × Bool × List TraceItem
  | s, q, [] => (s, q, [])
  | s, q, m :: rest =>
    match m with
    | .quit => drainMessages c s true rest
    | .custom p =>
      let s1 := c.update s (.custom p)
      let r := drainMessages c s1 q rest
      (r.1, r.2.1, .updateMsg (.custom p) :: r.2.2)

/-- Result of one loop iteration. -/
structure TickResult (σ : Type) where
  state : σ
  shouldQuit : Bool
  trace : List TraceItem
  deriving DecidableEq, Repr

/-- One iteration of the render loop body (src/app.rs lines 60-85), given
the channel contents at that tick: drain all events, then drain all
messages, then `if self.should_quit { break }` (no render), else one
`terminal.draw` render call. -/
def tickStep (c : Component σ) (s : σ) (q : Bool) (t : TickInput) : TickResult σ :=
  let rE := drainEvents c s t.events
  let rM := drainMessages c rE.1 q t.messages
  if rM.2.1 then ⟨rM.1, rM.2.1, rE.2 ++ rM.2.2⟩
  else ⟨rM.1, rM.2.1, rE.2 ++ rM.2.2 ++ [.render]⟩

/-- Result of a render-loop run over a finite list of modelled ticks. -/
structure LoopResult (σ : Type) where
  state : σ
  shouldQuit : Bool
  trace : List TraceItem
  ticksProcessed : Nat
  deriving DecidableEq, Repr

/-- `App::render_loop` (src/app.rs lines 56-89) over a finite schedule of
tick inputs (the channel contents each cadence tick would observe).  The
loop `break`s — processing no further tick inputs — as soon as an
iteration ends with the shutdown flag set; otherwise it renders and loops.
If the schedule is exhausted the run is cut off still running. -/
def renderLoop (c : Component σ) : σ → Bool → List TickInput → LoopResult σ
  | s, q, [] => ⟨s, q, [], 0⟩
  | s, q, t :: rest =>
    let r := tickStep c s q t
    if r.shouldQuit then ⟨r.state, r.shouldQuit, r.trace, 1⟩
    else
      let r2 := renderLoop c r.state r.shouldQuit rest
      ⟨r2.state, r2.shouldQuit, r.trace ++ r2.trace, r2.ticksProcessed + 1⟩

/-! ## Input loop (`src/app.rs`, `App::input_loop`) -/

deriving instance DecidableEq for Except

/-- `crossterm::event::Event` as matched by the input loop: `Key`, `Mouse`,
`Resize` are decoded; every other variant (FocusGained, FocusLost, Paste)
falls to the `_ => None` arm and is modelled as `other`. -/
inductive CrosstermEvent where
  | key (k : KeyEvent)
  | mouse (m : Nat)
  | resize (w h : Nat)
  | other (n : Nat)
  deriving DecidableEq, Repr

/-- The `match crossterm_event { .. }` decode in `App::input_loop`
(src/app.rs lines 105-110). -/
def decodeCrossterm : CrosstermEvent → Option Event
  | .key k => some (.key k)
  | .mouse m => some (.mouse m)
  | .resize w h => some (.resize w h)
  | .other _ => none

/-- One resolution of the input loop's `tokio::select!`: either the tick
interval fired, or the input-poll branch ran with the given outcomes of
`event::poll` (may error), `event::read` (may error), and the channel's
openness at the send. `chanOpen = false` models the receiver having been
dropped, making `send(..).is_err()` true. -/
inductive LoopStep where
  | timer (chanOpen : Bool)
  | input (pollOutcome : Except Nat Bool) (readOutcome : Except Nat CrosstermEvent)
      (chanOpen : Bool)
  deriving DecidableEq, Repr

/-- Input loop status: still looping with the events sent so far, or exited
with the `Result<()>` value the function returns. -/
inductive LoopState where
  | running (sent : List Event)
  | exited (sent : List Event) (result : Except Nat Unit)
  deriving DecidableEq, Repr

/-- One iteration of `App::input_loop` (src/app.rs lines 94-125), given how
the `select!` resolved:
- timer arm: send `Event::Tick`; `if ..is_err() { break }` — a closed
  channel exits the loop (the function then returns `Ok(())`);
- input arm: `event::poll(..).unwrap_or(false)` — a poll error counts as
  not ready; `if let Ok(ev) = event::read()` — a read error is skipped;
  an undecoded event (`None`) forwards nothing and continues; a decoded
  event is sent, and `send(..).is_err()` breaks out with `Ok(())`. -/
def inputLoopStep (st : LoopState) (step : LoopStep) : LoopState :=
  match st with
  | .exited _ _ => st
  | .running sent =>
    match step with
    | .timer chanOpen =>
      if chanOpen then .running (sent ++ [Event.tick])
      else .exited sent (Except.ok ())
    | .input pollOutcome readOutcome chanOpen =>
      let ready := match pollOutcome with
        | .ok b => b
        | .error _ => false
      if ready then
        match readOutcome with
        | .ok ce =>
          match decodeCrossterm ce with
          | some e =>
            if chanOpen then .running (sent ++ [e])
            else .exited sent (Except.ok ())
          | none => .running sent
        | .error _ => .running sent
      else .running sent

/-- `App::input_loop` over a finite schedule of `select!` resolutions,
starting with nothing sent. -/
def input_loop (steps : List LoopStep) : LoopState :=
  steps.foldl inputLoopStep (.running [])

/-- The loop has either not returned yet, or returned without an error. -/
def LoopState.neverErr : LoopState → Prop
  | .running _ => True
  | .exited _ r => r = Except.ok ()

/-! ## Counter example (`src/examples/counter.rs`) -/

/-- `struct Counter { count: i32, message_sender: Option<Sender<Message>> }`.
The sender handle is modelled by its presence; the messages a call pushes
through it are returned by `handle_event` instead. -/
structure Counter where
  count : Int
  messageSender : Bool
  deriving DecidableEq, Repr

/-- `Counter::new()` (src/examples/counter.rs lines 16-21). -/
def Counter.new : Counter := ⟨0, false⟩

/-- `Counter::set_message_sender` (line 63-65). -/
def Counter.set_message_sender (c : Counter) : Counter :=
  { c with messageSender := true }

/-- `Counter::handle_event` (src/examples/counter.rs lines 32-59).  Returns
the new state, the `EventResult`, and the messages pushed via
`sender.try_send` during the call (empty when no sender is attached; a
`try_send` error is discarded by `let _ =`). -/
def Counter.handle_event (c : Counter) (event : Event) :
    Counter × EventResult × List Message :=
  match event with
  | .key key =>
    if key.modifiers.containsControl then (c, .propagate, [])
    else
      match key.code with
      | .up => ({ c with count := c.count + 1 }, .consumed, [])
      | .down => ({ c with count := c.count - 1 }, .consumed, [])
      | .char 'q' => (c, .consumed, if c.messageSender then [Message.quit] else [])
      | .char 'Q' => (c, .consumed, if c.messageSender then [Message.quit] else [])
      | _ => (c, .propagate, [])
  | _ => (c, .propagate, [])

/-! ## List selector example (`src/examples/list_selector.rs`) -/

/-- `struct ListSelector { items: Vec<String>, selected: usize, message_sender: .. }`. -/
structure ListSelector where
  items : List String
  selected : Nat
  messageSender : Bool
  deriving DecidableEq, Repr

/-- `ListSelector::new()` (src/examples/list_selector.rs lines 18-32):
seven items, selection 0, no sender. -/
def ListSelector.new : ListSelector :=
  ⟨["Rust", "Python", "JavaScript", "Go", "TypeScript", "C++", "Java"], 0, false⟩

/-- `ListSelector::handle_event` (src/examples/list_selector.rs lines
63-89).  `Up` decrements selection when positive, `Down` increments while
`selected < items.len() - 1`, q/Q pushes `Quit` through the sender. -/
def ListSelector.handle_event (c : ListSelector) (event : Event) :
    ListSelector × EventResult × List Message :=
  match event with
  | .key key =>
    match key.code with
    | .up =>
      (if c.selected > 0 then { c with selected := c.selected - 1 } else c, .consumed, [])
    | .down =>
      (if c.selected < c.items.length - 1 then { c with selected := c.selected + 1 } else c,
        .consumed, [])
    | .char 'q' => (c, .consumed, if c.messageSender then [Message.quit] else [])
    | .char 'Q' => (c, .consumed, if c.messageSender then [Message.quit] else [])
    | _ => (c, .propagate, [])
  | _ => (c, .propagate, [])

/-! ## Concrete fixtures used to exercise the embedded runtime -/

/-- A concrete component over `Nat` state: every event bumps the state by 1
(returning `Consumed`), every forwarded message bumps it by 2. -/
def probeComponent : Component Nat :=
  ⟨fun s _ => (s + 1, EventResult.consumed), fun s _ => s + 2⟩

/-- Same state transitions as `probeComponent`, but `handle_event` returns
`Propagate` instead of `Consumed`. -/
def probeComponentB : Component Nat :=
  ⟨fun s _ => (s + 1, EventResult.propagate), fun s _ => s + 2⟩

/-- A small two-tick schedule with no quit message. -/
def probeTicks : List TickInput :=
  [⟨[Event.tick], []⟩,
   ⟨[Event.key ⟨KeyCode.up, KeyModifiers.NONE⟩], [Message.custom 3]⟩]

/-- A tick whose buffered messages contain a `Quit` (after a custom one). -/
def quitTick : TickInput := ⟨[Event.tick], [Message.custom 1, Message.quit]⟩

/-- One `Key(Down)` press on the list selector, keeping the mutated state. -/
def pressDown (c : ListSelector) : ListSelector :=
  (c.handle_event (Event.key ⟨KeyCode.down, KeyModifiers.NONE⟩)).1

/-! ## Helper lemmas -/

theorem drainEvents_trace_eq (c : Component σ) (s : σ) (evs : List Event) :
    (drainEvents c s evs).2 = evs.map TraceItem.handleEv := by
  induction evs generalizing s with
  | nil => rfl
  | cons e rest ih => simp [drainEvents, ih]

theorem drainMessages_flag_eq (c : Component σ) (s : σ) (q : Bool) (msgs : List Message) :
    (drainMessages c s q msgs).2.1 = (q || msgs.any Message.isQuit) := by
  induction msgs generalizing s q with
  | nil => simp [drainMessages]
  | cons m rest ih =>
    cases m with
    | quit => simp [drainMessages, ih, Message.isQuit]
    | custom p => simp [drainMessages, ih, Message.isQuit]

theorem drainMessages_trace_eq (c : Component σ) (s : σ) (q : Bool) (msgs : List Message) :
    (drainMessages c s q msgs).2.2
      = (msgs.filter (fun m => !m.isQuit)).map TraceItem.updateMsg := by
  induction msgs generalizing s q with
  | nil => simp [drainMessages]
  | cons m rest ih =>
    cases m with
    | quit => simp [drainMessages, ih, Message.isQuit]
    | custom p => simp [drainMessages, ih, Message.isQuit]

theorem drainMessages_state_eq (c : Component σ) (s : σ) (q : Bool) (msgs : List Message) :
    (drainMessages c s q msgs).1
      = (msgs.filter (fun m => !m.isQuit)).foldl c.update s := by
  induction msgs generalizing s q with
  | nil => simp [drainMessages]
  | cons m rest ih =>
    cases m with
    | quit => simp [drainMessages, ih, Message.isQuit]
    | custom p => simp [drainMessages, ih, Message.isQuit]

theorem tickStep_shouldQuit_eq (c : Component σ) (s : σ) (q : Bool) (t : TickInput) :
    (tickStep c s q t).shouldQuit = (q || t.messages.any Message.isQuit) := by
  rw [← drainMessages_flag_eq c (drainEvents c s t.events).1 q t.messages]
  simp only [tickStep]
  split <;> rfl

theorem tickStep_trace_eq (c : Component σ) (s : σ) (q : Bool) (t : TickInput) :
    (tickStep c s q t).trace
      = t.events.map TraceItem.handleEv
        ++ (t.messages.filter (fun m => !m.isQuit)).map TraceItem.updateMsg
        ++ (if (q || t.messages.any Message.isQuit) then [] else [TraceItem.render]) := by
  cases hq : (q || t.messages.any Message.isQuit) <;>
    simp [tickStep, drainEvents_trace_eq, drainMessages_trace_eq, drainMessages_flag_eq, hq]

theorem renderLoop_ticks_le (c : Component σ) (s : σ) (q : Bool) (ts : List TickInput) :
    (renderLoop c s q ts).ticksProcessed ≤ ts.length := by
  induction ts generalizing s q with
  | nil => simp [renderLoop]
  | cons t rest ih =>
    cases hq : (tickStep c s q t).shouldQuit
    · simp only [renderLoop, hq, List.length_cons]
      simp only [Bool.false_eq_true, if_false]
      exact Nat.succ_le_succ (ih _ false)
    · simp only [renderLoop, hq, List.length_cons, if_true]
      exact Nat.succ_le_succ (Nat.zero_le _)

theorem renderLoop_quit_cut (c : Component σ) (s : σ) (ts : List TickInput)
    (t : TickInput) (rest : List TickInput) (h : Message.quit ∈ t.messages) :
    renderLoop c s false (ts ++ t :: rest) = renderLoop c s false (ts ++ [t]) := by
  have hany : t.messages.any Message.isQuit = true :=
    List.any_eq_true.mpr ⟨Message.quit, h, rfl⟩
  induction ts generalizing s with
  | nil =>
    have hq : (tickStep c s false t).shouldQuit = true := by
      rw [tickStep_shouldQuit_eq, hany]; rfl
    simp [renderLoop, hq]
  | cons t0 ts ih =>
    cases hq : (tickStep c s false t0).shouldQuit <;>
      simp [renderLoop, hq, ih]

theorem drainEvents_congr (cA cB : Component σ)
    (hE : ∀ s e, (cA.handleEvent s e).1 = (cB.handleEvent s e).1)
    (s : σ) (evs : List Event) :
    drainEvents cA s evs = drainEvents cB s evs := by
  induction evs generalizing s with
  | nil => rfl
  | cons e rest ih => simp [drainEvents, hE, ih]

theorem drainMessages_congr (cA cB : Component σ) (hU : cA.update = cB.update)
    (s : σ) (q : Bool) (msgs : List Message) :
    drainMessages cA s q msgs = drainMessages cB s q msgs := by
  induction msgs generalizing s q with
  | nil => rfl
  | cons m rest ih => cases m <;> simp [drainMessages, hU, ih]

theorem tickStep_congr (cA cB : Component σ)
    (hE : ∀ s e, (cA.handleEvent s e).1 = (cB.handleEvent s e).1)
    (hU : cA.update = cB.update) (s : σ) (q : Bool) (t : TickInput) :
    tickStep cA s q t = tickStep cB s q t := by
  simp only [tickStep, drainEvents_congr cA cB hE, drainMessages_congr cA cB hU]

theorem renderLoop_congr (cA cB : Component σ)
    (hE : ∀ s e, (cA.handleEvent s e).1 = (cB.handleEvent s e).1)
    (hU : cA.update = cB.update) (ts : List TickInput) (s : σ) (q : Bool) :
    renderLoop cA s q ts = renderLoop cB s q ts := by
  induction ts generalizing s q with
  | nil => rfl
  | cons t rest ih =>
    simp only [renderLoop, tickStep_congr cA cB hE hU, ih]

theorem inputLoopStep_neverErr (st : LoopState) (step : LoopStep)
    (h : st.neverErr) : (inputLoopStep st step).neverErr := by
  cases st with
  | exited s r => exact h
  | running s =>
    cases step with
    | timer ch => cases ch <;> simp [inputLoopStep, LoopState.neverErr]
    | input p r ch =>
      cases p with
      | error e => simp [inputLoopStep, LoopState.neverErr]
      | ok b =>
        cases b with
        | false => simp [inputLoopStep, LoopState.neverErr]
        | true =>
          cases r with
          | error e => simp [inputLoopStep, LoopState.neverErr]
          | ok ce =>
            cases ce <;> cases ch <;>
              simp [inputLoopStep, decodeCrossterm, LoopState.neverErr]

theorem foldl_inputLoopStep_neverErr (steps : List LoopStep) (st : LoopState)
    (h : st.neverErr) : (steps.foldl inputLoopStep st).neverErr := by
  induction steps generalizing st with
  | nil => exact h
  | cons a rest ih => exact ih _ (inputLoopStep_neverErr st a h)

/-! ## Claim theorems -/

/-- C1: once a `Message::Quit` is observed during a tick's message drain, the
render loop is unaffected by any later tick's channel contents (the schedule
beyond the quit tick is never drained or rendered), it processes at most one
tick past the ticks that preceded the quit being buffered, and the quit tick
itself performs no render call. -/
theorem quit_message_is_terminal (c : Component σ) (s : σ) (ts : List TickInput)
    (t : TickInput) (rest : List TickInput) (h : Message.quit ∈ t.messages) :
    renderLoop c s false (ts ++ t :: rest) = renderLoop c s false (ts ++ [t])
    ∧ (renderLoop c s false (ts ++ t :: rest)).ticksProcessed ≤ ts.length + 1
    ∧ (∀ s2 q2, TraceItem.render ∉ (tickStep c s2 q2 t).trace) := by
  have hany : t.messages.any Message.isQuit = true :=
    List.any_eq_true.mpr ⟨Message.quit, h, rfl⟩
  refine ⟨renderLoop_quit_cut c s ts t rest h, ?_, ?_⟩
  · rw [renderLoop_quit_cut c s ts t rest h]
    have hle := renderLoop_ticks_le c s false (ts ++ [t])
    simpa using hle
  · intro s2 q2
    rw [tickStep_trace_eq]
    simp [hany]

/-- Witness for C1: a concrete run in which a quit is buffered in the third
tick; the two further scheduled ticks change nothing. -/
theorem quit_message_is_terminal_witness :
    Message.quit ∈ quitTick.messages
    ∧ renderLoop probeComponent 0 false (probeTicks ++ quitTick :: probeTicks)
        = renderLoop probeComponent 0 false (probeTicks ++ [quitTick]) :=
  ⟨by decide,
   (quit_message_is_terminal probeComponent 0 probeTicks quitTick probeTicks (by decide)).1⟩

/-- C3: the message drain forwards to `update` exactly the non-`Quit`
messages, in drain order — both in the invocation trace and in the state
fold — `update` is never invoked with `Quit`, and the shutdown flag ends up
set iff it was already set or a `Quit` was drained. -/
theorem quit_intercepted_before_update (c : Component σ) (s : σ) (q : Bool)
    (msgs : List Message) :
    (drainMessages c s q msgs).2.2
        = (msgs.filter (fun m => !m.isQuit)).map TraceItem.updateMsg
    ∧ (drainMessages c s q msgs).1 = (msgs.filter (fun m => !m.isQuit)).foldl c.update s
    ∧ (drainMessages c s q msgs).2.1 = (q || msgs.any Message.isQuit)
    ∧ TraceItem.updateMsg Message.quit ∉ (drainMessages c s q msgs).2.2 := by
  refine ⟨drainMessages_trace_eq .., drainMessages_state_eq .., drainMessages_flag_eq .., ?_⟩
  rw [drainMessages_trace_eq]
  simp [List.mem_filter, Message.isQuit]

/-- Witness for C3 at a concrete drain containing a quit between two custom
messages. -/
theorem quit_intercepted_before_update_witness :
    (drainMessages probeComponent 0 false
        [Message.custom 5, Message.quit, Message.custom 7]).2.2
      = [TraceItem.updateMsg (Message.custom 5), TraceItem.updateMsg (Message.custom 7)] := by
  have h := quit_intercepted_before_update probeComponent 0 false
    [Message.custom 5, Message.quit, Message.custom 7]
  simpa using h.1

/-- C4: in one render-loop tick, every buffered event is dispatched to
`handle_event` exactly once, in FIFO order, all of them before any buffered
message is forwarded and strictly before the tick's render call — which is
performed exactly when no shutdown was requested. -/
theorem events_before_messages_before_render (c : Component σ) (s : σ) (q : Bool)
    (evs : List Event) (msgs : List Message) :
    (tickStep c s q ⟨evs, msgs⟩).trace
      = evs.map TraceItem.handleEv
        ++ (msgs.filter (fun m => !m.isQuit)).map TraceItem.updateMsg
        ++ (if (q || msgs.any Message.isQuit) then [] else [TraceItem.render]) :=
  tickStep_trace_eq c s q ⟨evs, msgs⟩

/-- C9: the `EventResult` returned by `handle_event` is discarded by the
runtime: two components with the same state transitions and the same
`update`, differing arbitrarily in the `EventResult` they return, induce
identical render-loop runs — same final state, same dispatch/render trace,
same shutdown decision, same number of processed ticks. -/
theorem event_result_unobservable (cA cB : Component σ)
    (hE : ∀ s e, (cA.handleEvent s e).1 = (cB.handleEvent s e).1)
    (hU : cA.update = cB.update) (s : σ) (q : Bool) (ts : List TickInput) :
    renderLoop cA s q ts = renderLoop cB s q ts :=
  renderLoop_congr cA cB hE hU ts s q

/-- Witness for C9: two concrete components differing only in the
`EventResult` produce the same run. -/
theorem event_result_unobservable_witness :
    (probeComponent.handleEvent 0 Event.tick).1 = (probeComponentB.handleEvent 0 Event.tick).1
    ∧ renderLoop probeComponent 0 false probeTicks
        = renderLoop probeComponentB 0 false probeTicks :=
  ⟨rfl, event_result_unobservable probeComponent probeComponentB
    (fun _ _ => rfl) rfl 0 false probeTicks⟩

/-- C2 (evaluation at the failing input): starting from a quiescent terminal,
when `enable_raw_mode` succeeds and the `EnterAlternateScreen` execute fails,
`TerminalGuard::new` surfaces the error with raw mode still engaged — the
`?` on the failed execute returns before any compensating `disable_raw_mode`
runs, and no guard value exists yet whose `Drop` could undo it. -/
theorem terminalGuard_new_leaves_raw_mode_engaged :
    TerminalGuard_new ⟨true, false, true, true, true⟩ ⟨false, false⟩
      = (⟨true, false⟩, Except.error ()) := rfl

/-- C5: the guard's destructor attempts both teardown operations on every
path and swallows their failures: when both succeed, the terminal ends in
normal mode and on the main screen whatever its prior state; a failing
`disable_raw_mode` does not stop `LeaveAlternateScreen` from being executed,
nor a failing `LeaveAlternateScreen` undo the raw-mode restore; no error
escapes (the embedded destructor is a total function into `TermState`,
mirroring `fn drop(&mut self)` having no error channel). -/
theorem drop_restores_and_swallows_errors (a b c : Bool) (ts : TermState) :
    TerminalGuard_drop ⟨a, b, c, true, true⟩ ts = ⟨false, false⟩
    ∧ (TerminalGuard_drop ⟨a, b, c, false, true⟩ ts).altScreen = false
    ∧ (TerminalGuard_drop ⟨a, b, c, true, false⟩ ts).rawMode = false :=
  ⟨rfl, rfl, rfl⟩

/-- C6: the input loop never returns an error: at every point of every run
it is either still looping or has exited with `Ok(())`; a raw item that does
not decode to Key/Mouse/Resize is dropped without forwarding anything and
the loop keeps running; and a send onto a channel whose receiver was dropped
makes the loop exit immediately with `Ok(())`, from the tick arm and from
the input arm alike. -/
theorem input_loop_never_errors (steps : List LoopStep) (sent : List Event)
    (n : Nat) (k : KeyEvent) :
    (input_loop steps).neverErr
    ∧ inputLoopStep (.running sent)
        (.input (Except.ok true) (Except.ok (.other n)) true) = .running sent
    ∧ inputLoopStep (.running sent) (.timer false) = .exited sent (Except.ok ())
    ∧ inputLoopStep (.running sent)
        (.input (Except.ok true) (Except.ok (.key k)) false)
      = .exited sent (Except.ok ()) :=
  ⟨foldl_inputLoopStep_neverErr steps (.running []) trivial, rfl, rfl, rfl⟩

/-- C7: the Counter starts at count 0; one modifier-free `Key(Up)` yields
count 1; a following `Key(Down)` yields count 0 again; and with the message
sender attached, `Key('q')` emits exactly one `Quit` on the channel. -/
theorem counter_scenario :
    Counter.new.count = 0
    ∧ ((Counter.new.handle_event (Event.key ⟨KeyCode.up, KeyModifiers.NONE⟩)).1).count = 1
    ∧ (((Counter.new.handle_event (Event.key ⟨KeyCode.up, KeyModifiers.NONE⟩)).1.handle_event
          (Event.key ⟨KeyCode.down, KeyModifiers.NONE⟩)).1).count = 0
    ∧ (Counter.new.set_message_sender.handle_event
          (Event.key ⟨KeyCode.char 'q', KeyModifiers.NONE⟩)).2.2 = [Message.quit] :=
  ⟨rfl, rfl, rfl, rfl⟩

/-- C8: the list selector is constructed with 7 items and selection 0; six
`Key(Down)` presses advance the selection to 6; a seventh leaves it at 6 (no
wraparound past the last item); and `Key(Up)` at selection 0 leaves it at 0. -/
theorem list_selector_navigation :
    ListSelector.new.items.length = 7
    ∧ ListSelector.new.selected = 0
    ∧ (pressDown^[6] ListSelector.new).selected = 6
    ∧ (pressDown^[7] ListSelector.new).selected = 6
    ∧ (ListSelector.new.handle_event
        (Event.key ⟨KeyCode.up, KeyModifiers.NONE⟩)).1.selected = 0 := by
  refine ⟨rfl, rfl, by decide, by decide, rfl⟩

/-- C10: any key event whose modifier set contains CONTROL makes
`Counter::handle_event` return `Propagate` with the whole state unchanged
and no message emitted; in particular Ctrl+q with the sender attached emits
nothing, while plain q emits a `Quit`. -/
theorem counter_control_modifier_ignored (c : Counter) (k : KeyEvent)
    (h : k.modifiers.containsControl = true) :
    Counter.handle_event c (Event.key k) = (c, EventResult.propagate, [])
    ∧ Counter.handle_event Counter.new.set_message_sender
        (Event.key ⟨KeyCode.char 'q', KeyModifiers.CONTROL⟩)
      = (Counter.new.set_message_sender, EventResult.propagate, [])
    ∧ (Counter.handle_event Counter.new.set_message_sender
        (Event.key ⟨KeyCode.char 'q', KeyModifiers.NONE⟩)).2.2 = [Message.quit] := by
  refine ⟨?_, rfl, rfl⟩
  simp [Counter.handle_event, h]

/-- Witness for C10: Ctrl+Up on a fresh counter is ignored wholesale. -/
theorem counter_control_modifier_ignored_witness :
    KeyModifiers.CONTROL.containsControl = true
    ∧ Counter.handle_event Counter.new (Event.key ⟨KeyCode.up, KeyModifiers.CONTROL⟩)
        = (Counter.new, EventResult.propagate, []) :=
  ⟨rfl, (counter_control_modifier_ignored Counter.new
    ⟨KeyCode.up, KeyModifiers.CONTROL⟩ rfl).1⟩

end TuiBase
